import Mathlib

/-!
Verification of the `HealthProfile` validation core (src/health_profile.py)
and the `BMICalculator` (src/bmi_calculator.py) of the Diabetes_Project
repository.

Numeric values are modelled as rationals (`ℚ`): every literal in the range
table is an exact decimal and the code only compares, never computes, so
order-embedding the Python numbers into `ℚ` preserves all behaviour the
claims speak about.

Validation-error messages are modelled structurally: the Python code appends
the f-string
  "{field_name.replace(chr(95), chr(32)).title()} ({value}) is below minimum
   expected value ({min_val})"
(and the symmetric "above maximum" message).  Each such message is fully
determined by the raw field name, the offending value and the violated bound,
so the embedding keeps those three data in a constructor (`belowMin` /
`aboveMax`); `titleCase` reproduces the displayed field name.
-/

namespace Diabetes

/-- A single validation error, as appended by
`HealthProfile._check_range` (src/health_profile.py lines 163-172).
`belowMin f v m` stands for the message
"<titleCase f> (<v>) is below minimum expected value (<m>)";
`aboveMax f v m` stands for the symmetric "above maximum" message. -/
inductive ValidationError where
  | belowMin (fieldName : String) (value minVal : ℚ)
  | aboveMax (fieldName : String) (value maxVal : ℚ)
deriving DecidableEq, Repr

/-- The raw (underscore-separated) field name a validation error mentions. -/
def ValidationError.fieldName : ValidationError → String
  | .belowMin f _ _ => f
  | .aboveMax f _ _ => f

/-- Python `field_name.replace('_', ' ').title()` on the eight field names of
the range table: underscores become spaces and each word is capitalised. -/
def titleCase : String → String
  | "pregnancies" => "Pregnancies"
  | "glucose" => "Glucose"
  | "blood_pressure" => "Blood Pressure"
  | "skin_thickness" => "Skin Thickness"
  | "insulin" => "Insulin"
  | "bmi" => "Bmi"
  | "diabetes_pedigree" => "Diabetes Pedigree"
  | "age" => "Age"
  | s => s

/-- The module-level `VALID_RANGES` dictionary
(src/health_profile.py lines 11-24), in insertion order. -/
def VALID_RANGES : List (String × ℚ × ℚ) :=
  [("pregnancies", (0, 20)),
   ("glucose", (44, 199)),
   ("blood_pressure", (24, 122)),
   ("skin_thickness", (7, 99)),
   ("insulin", (14, 846)),
   ("bmi", (18.2, 67.1)),
   ("diabetes_pedigree", (0.078, 2.42)),
   ("age", (21, 81))]

/-- The `HealthProfile` dataclass fields (src/health_profile.py lines 82-96).
Required: glucose, blood_pressure, bmi, age.  Truly optional
(present-or-absent): skin_thickness, insulin, diabetes_pedigree.
Defaulted: pregnancies (default 0).  The `_validation_errors` slot is not a
field here: `__post_init__` always overwrites it with `_validate`'s output,
so it is the derived function `validationErrors` below. -/
structure HealthProfile where
  glucose : ℚ
  blood_pressure : ℚ
  bmi : ℚ
  age : ℚ
  skin_thickness : Option ℚ := none
  insulin : Option ℚ := none
  pregnancies : ℚ := 0
  diabetes_pedigree : Option ℚ := none
deriving DecidableEq, Repr

namespace HealthProfile

/-- `HealthProfile._check_range` (lines 150-172), generalised over the range
table so that statements "regardless of the table" can be made; the errors
this check appends for field `f`, given `f`'s current value.  An unknown
field name is skipped silently. -/
def checkRangeWith (ranges : List (String × ℚ × ℚ)) (f : String) (v : ℚ) :
    List ValidationError :=
  match ranges.lookup f with
  | none => []
  | some (minVal, maxVal) =>
    if v < minVal then [.belowMin f v minVal]
    else if maxVal < v then [.aboveMax f v maxVal]
    else []

/-- `HealthProfile._check_range` against the module's `VALID_RANGES`. -/
def checkRange (f : String) (v : ℚ) : List ValidationError :=
  checkRangeWith VALID_RANGES f v

/-- `HealthProfile._validate` (lines 124-148), generalised over the range
table: required fields always checked, optional fields only when supplied,
pregnancies only when non-zero, in the fixed source order. -/
def validateWith (ranges : List (String × ℚ × ℚ)) (p : HealthProfile) :
    List ValidationError :=
  checkRangeWith ranges "glucose" p.glucose ++
  checkRangeWith ranges "blood_pressure" p.blood_pressure ++
  checkRangeWith ranges "bmi" p.bmi ++
  checkRangeWith ranges "age" p.age ++
  (match p.skin_thickness with
   | some v => checkRangeWith ranges "skin_thickness" v
   | none => []) ++
  (match p.insulin with
   | some v => checkRangeWith ranges "insulin" v
   | none => []) ++
  (if p.pregnancies ≠ 0 then checkRangeWith ranges "pregnancies" p.pregnancies
   else []) ++
  (match p.diabetes_pedigree with
   | some v => checkRangeWith ranges "diabetes_pedigree" v
   | none => [])

/-- `HealthProfile._validate` against the module's `VALID_RANGES`; by
`__post_init__` (lines 106-118) this is exactly the content of
`_validation_errors` of every constructed profile. -/
def validate (p : HealthProfile) : List ValidationError :=
  validateWith VALID_RANGES p

/-- The `validation_errors` property (lines 192-203): a copy of the internal
error list (copying is the identity in a pure model). -/
def validation_errors (p : HealthProfile) : List ValidationError :=
  validate p

/-- `HealthProfile.is_valid` (lines 174-190): `len(errors) == 0`. -/
def is_valid (p : HealthProfile) : Bool :=
  (validate p).length == 0

/-- `HealthProfile.to_dict` (lines 209-243): insertion-ordered mapping, the
five always-present fields followed by whichever optionals are present. -/
def to_dict (p : HealthProfile) : List (String × ℚ) :=
  [("glucose", p.glucose),
   ("blood_pressure", p.blood_pressure),
   ("bmi", p.bmi),
   ("age", p.age),
   ("pregnancies", p.pregnancies)] ++
  (match p.skin_thickness with
   | some v => [("skin_thickness", v)]
   | none => []) ++
  (match p.insulin with
   | some v => [("insulin", v)]
   | none => []) ++
  (match p.diabetes_pedigree with
   | some v => [("diabetes_pedigree", v)]
   | none => [])

/-- `HealthProfile.from_dict` (lines 245-277): `data.get(key, 0)` for the
required keys and pregnancies, `data.get(key)` for the true optionals. -/
def from_dict (data : List (String × ℚ)) : HealthProfile :=
  { glucose := (data.lookup "glucose").getD 0,
    blood_pressure := (data.lookup "blood_pressure").getD 0,
    bmi := (data.lookup "bmi").getD 0,
    age := (data.lookup "age").getD 0,
    skin_thickness := data.lookup "skin_thickness",
    insulin := data.lookup "insulin",
    pregnancies := (data.lookup "pregnancies").getD 0,
    diabetes_pedigree := data.lookup "diabetes_pedigree" }

/-- `HealthProfile.get_available_features` (lines 293-311). -/
def get_available_features (p : HealthProfile) : List String :=
  ["glucose", "blood_pressure", "bmi", "age", "pregnancies"] ++
  (match p.skin_thickness with
   | some _ => ["skin_thickness"]
   | none => []) ++
  (match p.insulin with
   | some _ => ["insulin"]
   | none => []) ++
  (match p.diabetes_pedigree with
   | some _ => ["diabetes_pedigree"]
   | none => [])

/-- The value `_validate` checks for a given field of a profile, if that
field is checked at all: required fields always, optionals when supplied,
pregnancies when non-zero (lines 131-148). -/
def checkedValue (p : HealthProfile) : String → Option ℚ
  | "glucose" => some p.glucose
  | "blood_pressure" => some p.blood_pressure
  | "bmi" => some p.bmi
  | "age" => some p.age
  | "skin_thickness" => p.skin_thickness
  | "insulin" => p.insulin
  | "pregnancies" => if p.pregnancies ≠ 0 then some p.pregnancies else none
  | "diabetes_pedigree" => p.diabetes_pedigree
  | _ => none

/-- How many of the three truly optional fields were supplied. -/
def numSuppliedOptionals (p : HealthProfile) : Nat :=
  (if p.skin_thickness.isSome then 1 else 0) +
  (if p.insulin.isSome then 1 else 0) +
  (if p.diabetes_pedigree.isSome then 1 else 0)

/-- The fixed order in which `_validate` checks the fields
(lines 131-148). -/
def checkOrder : List String :=
  ["glucose", "blood_pressure", "bmi", "age",
   "skin_thickness", "insulin", "pregnancies", "diabetes_pedigree"]

end HealthProfile

/-- Example 1 of the module (lines 365-370): a basic valid profile. -/
def profileA : HealthProfile :=
  { glucose := 120, blood_pressure := 80, bmi := 28.5, age := 45 }

/-- Example 2 of the module (lines 376-385): a full profile whose supplied
insulin value 0 is below the table minimum 14. -/
def profileB : HealthProfile :=
  { glucose := 148, blood_pressure := 72, bmi := 33.6, age := 50,
    skin_thickness := some 35, insulin := some 0, pregnancies := 6,
    diabetes_pedigree := some 0.627 }

/-- A range table whose pregnancies minimum is positive, used to exercise
statements that hold for every range table. -/
def strictRanges : List (String × ℚ × ℚ) :=
  [("pregnancies", (5, 20))]

/-- `BMICalculator` (src/bmi_calculator.py): weight in kg, height in m. -/
structure BMICalculator where
  weight : ℚ
  height : ℚ
deriving DecidableEq, Repr

namespace BMICalculator

/-- `BMICalculator.calculate_bmi` (line 8-9): weight / height². -/
def calculate_bmi (c : BMICalculator) : ℚ :=
  c.weight / c.height ^ 2

/-- `BMICalculator.get_category` (lines 11-21). -/
def get_category (c : BMICalculator) : String :=
  let bmi := c.calculate_bmi
  if bmi < 18.5 then "Underweight"
  else if bmi < 25 then "Normal weight"
  else if bmi < 30 then "Overweight"
  else "Obese"

end BMICalculator

/-! ## Helper lemmas -/

/-- Round-trip on the dictionary encoding: reconstructing a profile from its
own dictionary restores every field exactly. -/
theorem from_dict_to_dict (p : HealthProfile) :
    HealthProfile.from_dict p.to_dict = p := by
  obtain ⟨g, bp, b, a, st, ins, preg, dp⟩ := p
  rcases st with _ | sv <;> rcases ins with _ | iv <;> rcases dp with _ | dv <;>
    simp [HealthProfile.from_dict, HealthProfile.to_dict, List.lookup]

/-! ## Claims -/

/-- Claim C3: for every constructed HealthProfile, `is_valid()` returns true
if and only if `validation_errors` is the empty list. -/
theorem c3_is_valid_iff_no_errors (p : HealthProfile) :
    p.is_valid = true ↔ p.validation_errors = [] := by
  unfold HealthProfile.is_valid HealthProfile.validation_errors
  simp [List.length_eq_zero]

/-- Claim C2: for every originally-valid profile `p`,
`from_dict(p.to_dict())` yields a profile with the same eight field values
(absent optionals staying absent) and the same `is_valid()` outcome. -/
theorem c2_round_trip (p : HealthProfile) (h : p.is_valid = true) :
    HealthProfile.from_dict p.to_dict = p ∧
    (HealthProfile.from_dict p.to_dict).is_valid = p.is_valid := by
  rw [from_dict_to_dict]
  exact ⟨rfl, rfl⟩

/-- Witness for C2 at the module's Example 1 profile. -/
theorem c2_round_trip_witness :
    profileA.is_valid = true ∧
    HealthProfile.from_dict profileA.to_dict = profileA ∧
    (HealthProfile.from_dict profileA.to_dict).is_valid = profileA.is_valid := by
  have hv : profileA.is_valid = true := by
    simp [profileA, HealthProfile.is_valid, HealthProfile.validate,
      HealthProfile.validateWith, HealthProfile.checkRangeWith, VALID_RANGES,
      List.lookup]
    norm_num
  exact ⟨hv, (c2_round_trip profileA hv).1, (c2_round_trip profileA hv).2⟩

/-- Claim C8: `get_available_features()` has length exactly 5 plus the
number of supplied optional fields. -/
theorem c8_available_features_length (p : HealthProfile) :
    p.get_available_features.length = 5 + p.numSuppliedOptionals := by
  obtain ⟨g, bp, b, a, st, ins, preg, dp⟩ := p
  rcases st with _ | sv <;> rcases ins with _ | iv <;> rcases dp with _ | dv <;>
    simp [HealthProfile.get_available_features, HealthProfile.numSuppliedOptionals]

/-- Claim C10: the ordered key list of `to_dict()` is exactly
`get_available_features()`. -/
theorem c10_to_dict_keys (p : HealthProfile) :
    p.to_dict.map Prod.fst = p.get_available_features := by
  obtain ⟨g, bp, b, a, st, ins, preg, dp⟩ := p
  rcases st with _ | sv <;> rcases ins with _ | iv <;> rcases dp with _ | dv <;>
    simp [HealthProfile.to_dict, HealthProfile.get_available_features]

/-- Claim C9: `calculate_bmi()` is weight / height², `get_category()`
follows the four-band table, and weight=70, height=1.7 falls in
"Normal weight". -/
theorem c9_bmi_category (c : BMICalculator) :
    c.calculate_bmi = c.weight / c.height ^ 2 ∧
    (c.calculate_bmi < 18.5 → c.get_category = "Underweight") ∧
    (18.5 ≤ c.calculate_bmi → c.calculate_bmi < 25 →
      c.get_category = "Normal weight") ∧
    (25 ≤ c.calculate_bmi → c.calculate_bmi < 30 →
      c.get_category = "Overweight") ∧
    (30 ≤ c.calculate_bmi → c.get_category = "Obese") ∧
    BMICalculator.get_category { weight := 70, height := 1.7 } =
      "Normal weight" := by
  refine ⟨rfl, ?_, ?_, ?_, ?_, ?_⟩
  · intro h1
    simp only [BMICalculator.get_category]
    split_ifs <;> first | rfl | linarith
  · intro h1 h2
    simp only [BMICalculator.get_category]
    split_ifs <;> first | rfl | linarith
  · intro h1 h2
    simp only [BMICalculator.get_category]
    split_ifs <;> first | rfl | linarith
  · intro h1
    simp only [BMICalculator.get_category]
    split_ifs <;> first | rfl | linarith
  · simp only [BMICalculator.get_category, BMICalculator.calculate_bmi]
    norm_num

/-- Witness for C9 at weight 70, height 1.7. -/
theorem c9_bmi_category_witness :
    (18.5 : ℚ) ≤ (BMICalculator.mk 70 1.7).calculate_bmi ∧
    (BMICalculator.mk 70 1.7).calculate_bmi < 25 ∧
    (BMICalculator.mk 70 1.7).get_category = "Normal weight" :=
  ⟨by norm_num [BMICalculator.calculate_bmi],
   by norm_num [BMICalculator.calculate_bmi],
   (c9_bmi_category (BMICalculator.mk 70 1.7)).2.2.1
     (by norm_num [BMICalculator.calculate_bmi])
     (by norm_num [BMICalculator.calculate_bmi])⟩

open HealthProfile

theorem checkRangeWith_filter (ranges : List (String × ℚ × ℚ)) (f g : String) (v : ℚ) :
    (checkRangeWith ranges g v).filter (fun e => e.fieldName == f) =
      if f = g then checkRangeWith ranges g v else [] := by
  unfold HealthProfile.checkRangeWith
  cases hlk : ranges.lookup g with
  | none => simp
  | some r =>
    obtain ⟨mn, mx⟩ := r
    dsimp only
    by_cases h : f = g
    · subst h
      rw [if_pos rfl]
      split_ifs <;> simp [ValidationError.fieldName]
    · rw [if_neg h]
      split_ifs <;> simp [ValidationError.fieldName, Ne.symm h]

theorem checkRangeWith_names_sublist (ranges : List (String × ℚ × ℚ)) (g : String) (v : ℚ) :
    List.Sublist ((checkRangeWith ranges g v).map ValidationError.fieldName) [g] := by
  unfold HealthProfile.checkRangeWith
  cases ranges.lookup g with
  | none => simp
  | some r =>
    obtain ⟨mn, mx⟩ := r
    dsimp only
    split_ifs <;> simp [ValidationError.fieldName]


theorem validate_filter_glucose (p : HealthProfile) :
    (validate p).filter (fun e => e.fieldName == "glucose") =
      checkRange "glucose" p.glucose := by
  obtain ⟨g, bp, b, a, st, ins, preg, dp⟩ := p
  unfold HealthProfile.validate HealthProfile.validateWith HealthProfile.checkRange
  rcases st with _ | sv <;> rcases ins with _ | iv <;> rcases dp with _ | dv <;>
    by_cases hp : preg = 0 <;>
      simp [List.filter_append, checkRangeWith_filter, hp]


theorem validate_filter_blood_pressure (p : HealthProfile) :
    (validate p).filter (fun e => e.fieldName == "blood_pressure") =
      checkRange "blood_pressure" p.blood_pressure := by
  obtain ⟨g, bp, b, a, st, ins, preg, dp⟩ := p
  unfold HealthProfile.validate HealthProfile.validateWith HealthProfile.checkRange
  rcases st with _ | sv <;> rcases ins with _ | iv <;> rcases dp with _ | dv <;>
    by_cases hp : preg = 0 <;>
      simp [List.filter_append, checkRangeWith_filter, hp]

theorem validate_filter_bmi (p : HealthProfile) :
    (validate p).filter (fun e => e.fieldName == "bmi") =
      checkRange "bmi" p.bmi := by
  obtain ⟨g, bp, b, a, st, ins, preg, dp⟩ := p
  unfold HealthProfile.validate HealthProfile.validateWith HealthProfile.checkRange
  rcases st with _ | sv <;> rcases ins with _ | iv <;> rcases dp with _ | dv <;>
    by_cases hp : preg = 0 <;>
      simp [List.filter_append, checkRangeWith_filter, hp]

theorem validate_filter_age (p : HealthProfile) :
    (validate p).filter (fun e => e.fieldName == "age") =
      checkRange "age" p.age := by
  obtain ⟨g, bp, b, a, st, ins, preg, dp⟩ := p
  unfold HealthProfile.validate HealthProfile.validateWith HealthProfile.checkRange
  rcases st with _ | sv <;> rcases ins with _ | iv <;> rcases dp with _ | dv <;>
    by_cases hp : preg = 0 <;>
      simp [List.filter_append, checkRangeWith_filter, hp]

theorem validate_filter_skin_thickness (p : HealthProfile) :
    (validate p).filter (fun e => e.fieldName == "skin_thickness") =
      (match p.skin_thickness with
       | some v => checkRange "skin_thickness" v
       | none => []) := by
  obtain ⟨g, bp, b, a, st, ins, preg, dp⟩ := p
  unfold HealthProfile.validate HealthProfile.validateWith HealthProfile.checkRange
  rcases st with _ | sv <;> rcases ins with _ | iv <;> rcases dp with _ | dv <;>
    by_cases hp : preg = 0 <;>
      simp [List.filter_append, checkRangeWith_filter, hp]

theorem validate_filter_insulin (p : HealthProfile) :
    (validate p).filter (fun e => e.fieldName == "insulin") =
      (match p.insulin with
       | some v => checkRange "insulin" v
       | none => []) := by
  obtain ⟨g, bp, b, a, st, ins, preg, dp⟩ := p
  unfold HealthProfile.validate HealthProfile.validateWith HealthProfile.checkRange
  rcases st with _ | sv <;> rcases ins with _ | iv <;> rcases dp with _ | dv <;>
    by_cases hp : preg = 0 <;>
      simp [List.filter_append, checkRangeWith_filter, hp]

theorem validate_filter_pregnancies (p : HealthProfile) :
    (validate p).filter (fun e => e.fieldName == "pregnancies") =
      (if p.pregnancies ≠ 0 then checkRange "pregnancies" p.pregnancies
       else []) := by
  obtain ⟨g, bp, b, a, st, ins, preg, dp⟩ := p
  unfold HealthProfile.validate HealthProfile.validateWith HealthProfile.checkRange
  rcases st with _ | sv <;> rcases ins with _ | iv <;> rcases dp with _ | dv <;>
    by_cases hp : preg = 0 <;>
      simp [List.filter_append, checkRangeWith_filter, hp]

theorem validate_filter_diabetes_pedigree (p : HealthProfile) :
    (validate p).filter (fun e => e.fieldName == "diabetes_pedigree") =
      (match p.diabetes_pedigree with
       | some v => checkRange "diabetes_pedigree" v
       | none => []) := by
  obtain ⟨g, bp, b, a, st, ins, preg, dp⟩ := p
  unfold HealthProfile.validate HealthProfile.validateWith HealthProfile.checkRange
  rcases st with _ | sv <;> rcases ins with _ | iv <;> rcases dp with _ | dv <;>
    by_cases hp : preg = 0 <;>
      simp [List.filter_append, checkRangeWith_filter, hp]

theorem lookup_mem_keys (f : String) (r : ℚ × ℚ)
    (hr : VALID_RANGES.lookup f = some r) :
    f = "pregnancies" ∨ f = "glucose" ∨ f = "blood_pressure" ∨
    f = "skin_thickness" ∨ f = "insulin" ∨ f = "bmi" ∨
    f = "diabetes_pedigree" ∨ f = "age" := by
  simp only [VALID_RANGES, List.lookup] at hr
  repeat' split at hr
  all_goals simp_all

theorem lookup_range_lt (f : String) (mn mx : ℚ)
    (hr : VALID_RANGES.lookup f = some (mn, mx)) : mn < mx := by
  rcases lookup_mem_keys f (mn, mx) hr with h | h | h | h | h | h | h | h <;>
    subst h <;> simp [VALID_RANGES, List.lookup, Prod.ext_iff] at hr <;>
      obtain ⟨h1, h2⟩ := hr <;> rw [← h1, ← h2] <;> norm_num

theorem checkRange_spec (f : String) (v mn mx : ℚ)
    (hr : VALID_RANGES.lookup f = some (mn, mx)) :
    (checkRange f v).length ≤ 1 ∧
    (mn < v → v < mx → checkRange f v = []) ∧
    (v < mn → checkRange f v = [ValidationError.belowMin f v mn]) ∧
    (mx < v → checkRange f v = [ValidationError.aboveMax f v mx]) := by
  unfold HealthProfile.checkRange HealthProfile.checkRangeWith
  rw [hr]
  dsimp only
  refine ⟨?_, ?_, ?_, ?_⟩
  · split_ifs <;> simp
  · intro h1 h2
    rw [if_neg (by linarith), if_neg (by linarith)]
  · intro h1
    rw [if_pos h1]
  · intro h1
    have hlt : mn < mx := lookup_range_lt f mn mx hr
    rw [if_neg (by linarith), if_pos h1]


theorem validate_filter_checked (p : HealthProfile) (f : String) (v : ℚ)
    (r : ℚ × ℚ) (hv : p.checkedValue f = some v)
    (hr : VALID_RANGES.lookup f = some r) :
    p.validation_errors.filter (fun e => e.fieldName == f) =
      checkRange f v := by
  rcases lookup_mem_keys f r hr with h | h | h | h | h | h | h | h <;> subst h
  · -- pregnancies
    simp only [HealthProfile.checkedValue] at hv
    unfold HealthProfile.validation_errors
    rw [validate_filter_pregnancies p]
    by_cases hp : p.pregnancies ≠ 0
    · rw [if_pos hp] at hv ⊢
      obtain rfl : p.pregnancies = v := by simpa using hv
      rfl
    · rw [if_neg hp] at hv
      simp at hv
  · -- glucose
    simp only [HealthProfile.checkedValue] at hv
    obtain rfl : p.glucose = v := by simpa using hv
    exact validate_filter_glucose p
  · -- blood_pressure
    simp only [HealthProfile.checkedValue] at hv
    obtain rfl : p.blood_pressure = v := by simpa using hv
    exact validate_filter_blood_pressure p
  · -- skin_thickness
    simp only [HealthProfile.checkedValue] at hv
    have h := validate_filter_skin_thickness p
    rw [hv] at h
    exact h
  · -- insulin
    simp only [HealthProfile.checkedValue] at hv
    have h := validate_filter_insulin p
    rw [hv] at h
    exact h
  · -- bmi
    simp only [HealthProfile.checkedValue] at hv
    obtain rfl : p.bmi = v := by simpa using hv
    exact validate_filter_bmi p
  · -- diabetes_pedigree
    simp only [HealthProfile.checkedValue] at hv
    have h := validate_filter_diabetes_pedigree p
    rw [hv] at h
    exact h
  · -- age
    simp only [HealthProfile.checkedValue] at hv
    obtain rfl : p.age = v := by simpa using hv
    exact validate_filter_age p

theorem c1_per_field_messages (p : HealthProfile) (f : String) (v mn mx : ℚ)
    (hv : p.checkedValue f = some v)
    (hr : VALID_RANGES.lookup f = some (mn, mx)) :
    (p.validation_errors.filter (fun e => e.fieldName == f)).length ≤ 1 ∧
    (mn < v → v < mx →
      p.validation_errors.filter (fun e => e.fieldName == f) = []) ∧
    (v < mn → p.validation_errors.filter (fun e => e.fieldName == f) =
      [ValidationError.belowMin f v mn]) ∧
    (mx < v → p.validation_errors.filter (fun e => e.fieldName == f) =
      [ValidationError.aboveMax f v mx]) := by
  rw [validate_filter_checked p f v (mn, mx) hv hr]
  exact checkRange_spec f v mn mx hr

theorem c1_per_field_messages_witness :
    profileB.checkedValue "insulin" = some 0 ∧
    VALID_RANGES.lookup "insulin" = some (14, 846) ∧
    (0 : ℚ) < 14 ∧
    profileB.validation_errors.filter (fun e => e.fieldName == "insulin") =
      [ValidationError.belowMin "insulin" 0 14] := by
  have hcv : profileB.checkedValue "insulin" = some 0 := by
    simp [profileB, HealthProfile.checkedValue]
  have hlk : VALID_RANGES.lookup "insulin" = some (14, 846) := by
    simp [VALID_RANGES, List.lookup]
  exact ⟨hcv, hlk, by norm_num,
    (c1_per_field_messages profileB "insulin" 0 14 846 hcv hlk).2.2.1
      (by norm_num)⟩


theorem c4_error_order (p : HealthProfile) :
    List.Sublist (p.validation_errors.map ValidationError.fieldName)
      (HealthProfile.checkOrder.filter
        (fun f => (p.checkedValue f).isSome)) := by
  obtain ⟨g, bp, b, a, st, ins, preg, dp⟩ := p
  have hfilter : HealthProfile.checkOrder.filter
      (fun f =>
        ((HealthProfile.mk g bp b a st ins preg dp).checkedValue f).isSome) =
      ["glucose"] ++ ["blood_pressure"] ++ ["bmi"] ++ ["age"] ++
      (match st with | some _ => ["skin_thickness"] | none => []) ++
      (match ins with | some _ => ["insulin"] | none => []) ++
      (if preg ≠ 0 then ["pregnancies"] else []) ++
      (match dp with | some _ => ["diabetes_pedigree"] | none => []) := by
    rcases st with _ | sv <;> rcases ins with _ | iv <;> rcases dp with _ | dv <;>
      by_cases hp : preg = 0 <;>
        simp [HealthProfile.checkOrder, HealthProfile.checkedValue, hp,
          List.filter]
  rw [hfilter]
  unfold HealthProfile.validation_errors HealthProfile.validate
    HealthProfile.validateWith
  simp only [List.map_append]
  refine List.Sublist.append (List.Sublist.append (List.Sublist.append
    (List.Sublist.append (List.Sublist.append (List.Sublist.append
      (List.Sublist.append ?_ ?_) ?_) ?_) ?_) ?_) ?_) ?_
  · exact checkRangeWith_names_sublist _ _ _
  · exact checkRangeWith_names_sublist _ _ _
  · exact checkRangeWith_names_sublist _ _ _
  · exact checkRangeWith_names_sublist _ _ _
  · cases st with
    | none => simp
    | some sv => exact checkRangeWith_names_sublist _ _ _
  · cases ins with
    | none => simp
    | some iv => exact checkRangeWith_names_sublist _ _ _
  · by_cases hp : preg ≠ 0
    · rw [if_pos hp, if_pos hp]
      exact checkRangeWith_names_sublist _ _ _
    · rw [if_neg hp, if_neg hp]
      simp
  · cases dp with
    | none => simp
    | some dv => exact checkRangeWith_names_sublist _ _ _

theorem c6_pregnancies_zero_skipped (ranges : List (String × ℚ × ℚ))
    (p : HealthProfile) (h : p.pregnancies = 0) :
    (HealthProfile.validateWith ranges p).filter
      (fun e => e.fieldName == "pregnancies") = [] := by
  obtain ⟨g, bp, b, a, st, ins, preg, dp⟩ := p
  simp only at h
  subst h
  unfold HealthProfile.validateWith
  rcases st with _ | sv <;> rcases ins with _ | iv <;> rcases dp with _ | dv <;>
    simp [List.filter_append, checkRangeWith_filter]

theorem c6_pregnancies_zero_skipped_witness :
    profileA.pregnancies = 0 ∧
    (HealthProfile.validateWith strictRanges profileA).filter
      (fun e => e.fieldName == "pregnancies") = [] :=
  ⟨rfl, c6_pregnancies_zero_skipped strictRanges profileA rfl⟩


theorem c5_construction_total (g bp b a : ℚ) (st ins : Option ℚ) (preg : ℚ)
    (dp : Option ℚ) :
    ∃ p : HealthProfile, p = HealthProfile.mk g bp b a st ins preg dp ∧
      p.glucose = g ∧ p.blood_pressure = bp ∧ p.bmi = b ∧ p.age = a ∧
      p.skin_thickness = st ∧ p.insulin = ins ∧ p.pregnancies = preg ∧
      p.diabetes_pedigree = dp ∧
      (∀ f v mn mx, p.checkedValue f = some v →
        VALID_RANGES.lookup f = some (mn, mx) → v < mn →
        ValidationError.belowMin f v mn ∈ p.validation_errors) ∧
      (∀ f v mn mx, p.checkedValue f = some v →
        VALID_RANGES.lookup f = some (mn, mx) → mx < v →
        ValidationError.aboveMax f v mx ∈ p.validation_errors) := by
  refine ⟨_, rfl, rfl, rfl, rfl, rfl, rfl, rfl, rfl, rfl, ?_, ?_⟩
  · intro f v mn mx hv hr hlt
    refine List.mem_of_mem_filter (p := fun e => e.fieldName == f) ?_
    rw [validate_filter_checked _ f v (mn, mx) hv hr,
      (checkRange_spec f v mn mx hr).2.2.1 hlt]
    simp
  · intro f v mn mx hv hr hgt
    refine List.mem_of_mem_filter (p := fun e => e.fieldName == f) ?_
    rw [validate_filter_checked _ f v (mn, mx) hv hr,
      (checkRange_spec f v mn mx hr).2.2.2 hgt]
    simp

theorem c5_construction_total_witness :
    ValidationError.belowMin "insulin" 0 14 ∈
      (HealthProfile.mk 148 72 33.6 50 (some 35) (some 0) 6
        (some 0.627)).validation_errors := by
  obtain ⟨p, hp, -, -, -, -, -, -, -, -, hbelow, -⟩ :=
    c5_construction_total 148 72 33.6 50 (some 35) (some 0) 6 (some 0.627)
  subst hp
  exact hbelow "insulin" 0 14 846 (by simp [HealthProfile.checkedValue])
    (by simp [VALID_RANGES, List.lookup]) (by norm_num)

theorem c7_from_dict_defaults (d : List (String × ℚ)) :
    (d.lookup "glucose" = none → (HealthProfile.from_dict d).glucose = 0) ∧
    (d.lookup "blood_pressure" = none →
      (HealthProfile.from_dict d).blood_pressure = 0) ∧
    (d.lookup "bmi" = none → (HealthProfile.from_dict d).bmi = 0) ∧
    (d.lookup "age" = none → (HealthProfile.from_dict d).age = 0) ∧
    (d.lookup "pregnancies" = none →
      (HealthProfile.from_dict d).pregnancies = 0) ∧
    (HealthProfile.from_dict d).validation_errors =
      HealthProfile.validate (HealthProfile.from_dict d) ∧
    (HealthProfile.from_dict ([] : List (String × ℚ))).validation_errors ≠
      [] := by
  refine ⟨?_, ?_, ?_, ?_, ?_, rfl, ?_⟩
  · intro h
    simp [HealthProfile.from_dict, h]
  · intro h
    simp [HealthProfile.from_dict, h]
  · intro h
    simp [HealthProfile.from_dict, h]
  · intro h
    simp [HealthProfile.from_dict, h]
  · intro h
    simp [HealthProfile.from_dict, h]
  · simp [HealthProfile.from_dict, HealthProfile.validation_errors,
      HealthProfile.validate, HealthProfile.validateWith,
      HealthProfile.checkRangeWith, VALID_RANGES, List.lookup]

theorem c7_from_dict_defaults_witness :
    List.lookup "glucose" ([] : List (String × ℚ)) = none ∧
    (HealthProfile.from_dict ([] : List (String × ℚ))).glucose = 0 ∧
    (HealthProfile.from_dict ([] : List (String × ℚ))).validation_errors ≠
      [] :=
  ⟨rfl, (c7_from_dict_defaults []).1 rfl, (c7_from_dict_defaults []).2.2.2.2.2.2⟩

end Diabetes
